import Mathlib

/-!
Shallow embedding of the web backend of the capacitor-native-audio plugin
(file src/web.ts, class NativeAudioWeb) together with the parts of the
browser environment it drives. JavaScript numbers are modelled by an
inductive type distinguishing NaN, the two infinities and finite values
(finite values as rationals); the HTMLAudioElement backend is modelled as a
record whose setters follow the WHATWG HTML standard; the static Map that
backs the asset registry is modelled as an association list with the Map
semantics of get, has, set and delete. Each plugin method is a function
from the plugin state to a result paired with the state after the call: a
thrown value is an error result, and since JavaScript exceptions do not
roll back earlier mutations the state after a throw is returned explicitly.
-/

/-- Model of a JavaScript number as used by the audio code: NaN, an
infinity, or a finite value represented exactly as a rational. -/
inductive JSNum where
  | nan
  | posInf
  | negInf
  | fin (q : ℚ)
deriving DecidableEq

namespace JSNum

/-- Number.isNaN. -/
def isNaN : JSNum → Bool
  | .nan => true
  | _ => false

/-- Number.isFinite. -/
def isFinite : JSNum → Bool
  | .fin _ => true
  | _ => false

/-- JavaScript truthiness of a number: 0 and NaN are falsy, every other
number is truthy. -/
def truthy : JSNum → Bool
  | .nan => false
  | .fin q => decide (q ≠ 0)
  | _ => true

/-- Membership in the closed range from 0.0 to 1.0; false for NaN and the
infinities. -/
def inUnitRange : JSNum → Bool
  | .fin q => decide ((0 : ℚ) ≤ q) && decide (q ≤ 1)
  | _ => false

end JSNum

/-- Values thrown by the code: web.ts throws bare strings, and the backend
volume setter can throw a DOMException of kind IndexSizeError. -/
inductive JSError where
  | thrown (msg : String)
  | indexSizeError
deriving DecidableEq

/-- State of one HTMLAudioElement backend handle. The field
endedOnceListeners counts the pending listeners registered with the
once option for the ended event; every listener the plugin registers is the
same closure, namely one call of onEnded with the asset id. -/
structure HTMLAudioElement where
  src : String
  autoplay : Bool
  loop : Bool
  preloadAttr : String
  volume : JSNum
  playbackRate : JSNum
  currentTime : JSNum
  duration : JSNum
  paused : Bool
  endedOnceListeners : Nat
deriving DecidableEq

/-- State of new Audio(path) per the WHATWG HTML standard: volume 1.0,
playbackRate 1.0, position 0, duration NaN until metadata is known, paused,
no listeners. -/
def newAudio (path : String) : HTMLAudioElement :=
  { src := path
    autoplay := false
    loop := false
    preloadAttr := "auto"
    volume := JSNum.fin 1
    playbackRate := JSNum.fin 1
    currentTime := JSNum.fin 0
    duration := JSNum.nan
    paused := true
    endedOnceListeners := 0 }

/-- WHATWG HTML setter for HTMLMediaElement.volume: a value outside the
range 0.0 to 1.0 (hence also NaN or an infinity) raises an IndexSizeError
DOMException and leaves the stored volume unchanged. -/
def setVolumeDOM (a : HTMLAudioElement) (v : JSNum) : Except JSError HTMLAudioElement :=
  if v.inUnitRange then .ok { a with volume := v } else .error .indexSizeError

/-- Modelled from the spec: the class AudioAsset (file src/audio-asset.ts,
absent from the sources) pairs the backend handle with the asset; web.ts
only constructs it with new AudioAsset(audio) and reads back the audio
property. -/
structure AudioAsset where
  audio : HTMLAudioElement
deriving DecidableEq

/-- Lookup in the registry Map: the value stored under the key, if any. -/
def mapGet? : List (String × AudioAsset) → String → Option AudioAsset
  | [], _ => none
  | p :: t, k => if p.1 = k then some p.2 else mapGet? t k

/-- Map.has: the key is present. -/
def mapHas (l : List (String × AudioAsset)) (k : String) : Bool :=
  (mapGet? l k).isSome

/-- Map.set: replace the value stored under the key in place, or append a
new entry. -/
def mapSet : List (String × AudioAsset) → String → AudioAsset → List (String × AudioAsset)
  | [], k, v => [(k, v)]
  | p :: t, k, v => if p.1 = k then (k, v) :: t else p :: mapSet t k v

/-- Map.delete: remove every entry stored under the key. -/
def mapDelete : List (String × AudioAsset) → String → List (String × AudioAsset)
  | [], _ => []
  | p :: t, k => if p.1 = k then mapDelete t k else p :: mapDelete t k

/-- Apply a mutation to the audio object of the asset stored under the key;
other entries are untouched. This models an assignment to a property of
the audio object obtained from the registry, which mutates the registered
asset in place. -/
def updAudio : List (String × AudioAsset) → String → (HTMLAudioElement → HTMLAudioElement) → List (String × AudioAsset)
  | [], _, _ => []
  | p :: t, k, f => (if p.1 = k then (p.1, ⟨f p.2.audio⟩) else p) :: updAudio t k f

/-- State of the plugin: the static registry Map AUDIO_ASSET_BY_ASSET_ID
and the list of complete events notified so far, in order, each recorded as
its assetId payload. -/
structure WebState where
  registry : List (String × AudioAsset)
  events : List String
deriving DecidableEq

/-- Mutate the audio object of the asset registered under the id. -/
def updateAudio (st : WebState) (id : String) (f : HTMLAudioElement → HTMLAudioElement) : WebState :=
  { st with registry := updAudio st.registry id f }

namespace NativeAudioWeb

/-- Error thrown by getAudioAsset when the id is not registered. -/
def assetNotFound (assetId : String) : JSError :=
  .thrown ("no asset for assetId \"" ++ assetId ++ "\" available. Call preload first!")

/-- checkAssetId: the typeof guard cannot fire in this typed model; an
empty assetId throws. -/
def checkAssetId (assetId : String) : Except JSError Unit :=
  if assetId.length = 0 then .error (.thrown "no assetId provided") else .ok ()

/-- getAudioAsset: validate the id, then look it up in the registry. -/
def getAudioAsset (st : WebState) (assetId : String) : Except JSError AudioAsset :=
  match checkAssetId assetId with
  | .error e => .error e
  | .ok _ =>
    match mapGet? st.registry assetId with
    | some a => .ok a
    | none => .error (assetNotFound assetId)

/-- resume: play the audio again only if it is paused. -/
def resume (st : WebState) (assetId : String) : Except JSError Unit × WebState :=
  match getAudioAsset st assetId with
  | .error e => (.error e, st)
  | .ok asset =>
    if asset.audio.paused then
      (.ok (), updateAudio st assetId (fun a => { a with paused := false }))
    else
      (.ok (), st)

/-- pause: pause the backend. -/
def pause (st : WebState) (assetId : String) : Except JSError Unit × WebState :=
  match getAudioAsset st assetId with
  | .error e => (.error e, st)
  | .ok _ => (.ok (), updateAudio st assetId (fun a => { a with paused := true }))

/-- setCurrentTime: seek the backend to the given time. -/
def setCurrentTime (st : WebState) (assetId : String) (time : JSNum) : Except JSError Unit × WebState :=
  match getAudioAsset st assetId with
  | .error e => (.error e, st)
  | .ok _ => (.ok (), updateAudio st assetId (fun a => { a with currentTime := time }))

/-- getCurrentTime: read the playback position off the backend. -/
def getCurrentTime (st : WebState) (assetId : String) : Except JSError JSNum × WebState :=
  match getAudioAsset st assetId with
  | .error e => (.error e, st)
  | .ok asset => (.ok asset.audio.currentTime, st)

/-- getDuration: NaN duration throws, a non-finite duration throws, a
finite duration is returned. -/
def getDuration (st : WebState) (assetId : String) : Except JSError JSNum × WebState :=
  match getAudioAsset st assetId with
  | .error e => (.error e, st)
  | .ok asset =>
    if asset.audio.duration.isNaN then
      (.error (.thrown "no duration available"), st)
    else if !asset.audio.duration.isFinite then
      (.error (.thrown "duration not available => media resource is streaming"), st)
    else
      (.ok asset.audio.duration, st)

/-- isPreloaded: getAudioAsset inside a try, every thrown value is caught
and turned into found false; a resolved asset object is truthy, so found is
true whenever the lookup succeeds. Never throws. -/
def isPreloaded (st : WebState) (assetId : String) : Bool :=
  match getAudioAsset st assetId with
  | .ok _ => true
  | .error _ => false

/-- Test of the RegExp built from the anchor and the FILE_LOCATION
constant: FILE_LOCATION is the empty string, so the pattern matches an
optional leading slash followed by nothing and accepts every string. -/
def regexTestFileLocation (_path : String) : Bool :=
  true

/-- preload: reject a duplicate id, reject an empty path, rewrite a
non-URL path that misses the FILE_LOCATION prefix (a dead branch, since the
regex accepts every string), build the audio element, apply a truthy volume
option through the backend setter, and register the asset. The id itself is
never validated here. -/
def preload (st : WebState) (assetId : String) (assetPath : String) (isUrl : Bool)
    (volume : Option JSNum) : Except JSError Unit × WebState :=
  if mapHas st.registry assetId then
    (.error (.thrown "AssetId already exists. Unload first if like to change!"), st)
  else if assetPath.length = 0 then
    (.error (.thrown "no assetPath provided"), st)
  else
    let path :=
      if !isUrl && !regexTestFileLocation assetPath then
        (if assetPath.startsWith "/" then "" else "/") ++ assetPath
      else assetPath
    let audio := { newAudio path with autoplay := false, loop := false, preloadAttr := "auto" }
    match volume with
    | some v =>
      if v.truthy then
        match setVolumeDOM audio v with
        | .error e => (.error e, st)
        | .ok audio2 => (.ok (), { st with registry := mapSet st.registry assetId ⟨audio2⟩ })
      else
        (.ok (), { st with registry := mapSet st.registry assetId ⟨audio⟩ })
    | none => (.ok (), { st with registry := mapSet st.registry assetId ⟨audio⟩ })

/-- onEnded: notifyListeners of a complete event carrying the asset id. -/
def onEnded (st : WebState) (assetId : String) : WebState :=
  { st with events := st.events ++ [assetId] }

/-- stop: pause the backend, clear the loop flag, rewind to 0. -/
def stop (st : WebState) (assetId : String) : Except JSError Unit × WebState :=
  match getAudioAsset st assetId with
  | .error e => (.error e, st)
  | .ok _ =>
    (.ok (), updateAudio st assetId
      (fun a => { a with paused := true, loop := false, currentTime := JSNum.fin 0 }))

/-- play: resolve the asset, stop it, clear the loop flag, seek to the
requested time (default 0), register one more one-shot ended listener, and
start the backend. -/
def play (st : WebState) (assetId : String) (time : Option JSNum) : Except JSError Unit × WebState :=
  let t := time.getD (JSNum.fin 0)
  match getAudioAsset st assetId with
  | .error e => (.error e, st)
  | .ok _ =>
    match stop st assetId with
    | (.error e, st1) => (.error e, st1)
    | (.ok _, st1) =>
      (.ok (), updateAudio st1 assetId
        (fun a => { a with loop := false, currentTime := t,
                           endedOnceListeners := a.endedOnceListeners + 1, paused := false }))

/-- loop: resolve the asset, stop it, set the loop flag, start the
backend. No ended listener is registered here. -/
def loop (st : WebState) (assetId : String) : Except JSError Unit × WebState :=
  match getAudioAsset st assetId with
  | .error e => (.error e, st)
  | .ok _ =>
    match stop st assetId with
    | (.error e, st1) => (.error e, st1)
    | (.ok _, st1) =>
      (.ok (), updateAudio st1 assetId (fun a => { a with loop := true, paused := false }))

/-- unload: stop the asset, then delete its registry entry. -/
def unload (st : WebState) (assetId : String) : Except JSError Unit × WebState :=
  match stop st assetId with
  | (.error e, st1) => (.error e, st1)
  | (.ok _, st1) => (.ok (), { st1 with registry := mapDelete st1.registry assetId })

/-- setVolume: a non-number volume throws before the lookup; afterwards
the value is assigned to the backend volume property, whose WHATWG setter
rejects values outside the range 0.0 to 1.0. The plugin itself performs no
range validation. -/
def setVolume (st : WebState) (assetId : String) (volume : Option JSNum) : Except JSError Unit × WebState :=
  match volume with
  | none => (.error (.thrown "no volume provided"), st)
  | some v =>
    match getAudioAsset st assetId with
    | .error e => (.error e, st)
    | .ok asset =>
      match setVolumeDOM asset.audio v with
      | .error e => (.error e, st)
      | .ok audio2 => (.ok (), updateAudio st assetId (fun _ => audio2))

/-- setRate: a non-number rate throws before the lookup; afterwards the
value is assigned to the backend playbackRate property, whose WHATWG setter
accepts any number. Neither the plugin nor the backend validates a range
here. -/
def setRate (st : WebState) (assetId : String) (rate : Option JSNum) : Except JSError Unit × WebState :=
  match rate with
  | none => (.error (.thrown "no rate provided"), st)
  | some r =>
    match getAudioAsset st assetId with
    | .error e => (.error e, st)
    | .ok _ => (.ok (), updateAudio st assetId (fun a => { a with playbackRate := r }))

/-- isPlaying: the backend is not paused. -/
def isPlaying (st : WebState) (assetId : String) : Except JSError Bool × WebState :=
  match getAudioAsset st assetId with
  | .error e => (.error e, st)
  | .ok asset => (.ok (!asset.audio.paused), st)

/-- clearCache: no persistent cache on the web, nothing happens. -/
def clearCache (st : WebState) : Except JSError Unit × WebState :=
  (.ok (), st)

end NativeAudioWeb

/-- Environment step, modelled after the WHATWG media element: playback of
the asset registered under the id reaches the end of the resource. Nothing
happens while the element is paused, and with the loop attribute set the
element seeks back to the start without firing ended. Otherwise the element
stops and the single ended event runs every pending once listener, each of
which calls onEnded with the asset id, and removes them. -/
def fireEnded (st : WebState) (id : String) : WebState :=
  match mapGet? st.registry id with
  | none => st
  | some asset =>
    if asset.audio.paused || asset.audio.loop then st
    else
      { registry := updAudio st.registry id (fun a => { a with paused := true, endedOnceListeners := 0 })
        events := st.events ++ List.replicate asset.audio.endedOnceListeners id }

/-! Registry lemmas: how lookup interacts with the mutation helpers. -/

theorem mapGet?_updAudio_self (l : List (String × AudioAsset)) (k : String)
    (f : HTMLAudioElement → HTMLAudioElement) :
    mapGet? (updAudio l k f) k = (mapGet? l k).map (fun a => ⟨f a.audio⟩) := by
  induction l with
  | nil => rfl
  | cons p t ih =>
    by_cases h : p.1 = k
    · simp [updAudio, mapGet?, h]
    · simp [updAudio, mapGet?, h, ih]

theorem mapGet?_updAudio_other (l : List (String × AudioAsset)) (k j : String)
    (f : HTMLAudioElement → HTMLAudioElement) (hj : j ≠ k) :
    mapGet? (updAudio l k f) j = mapGet? l j := by
  induction l with
  | nil => rfl
  | cons p t ih =>
    by_cases h : p.1 = k
    · simp [updAudio, mapGet?, h, Ne.symm hj, ih]
    · by_cases h2 : p.1 = j
      · simp [updAudio, mapGet?, h, h2, hj]
      · simp [updAudio, mapGet?, h, h2, ih]

theorem mapGet?_mapDelete_self (l : List (String × AudioAsset)) (k : String) :
    mapGet? (mapDelete l k) k = none := by
  induction l with
  | nil => rfl
  | cons p t ih =>
    by_cases h : p.1 = k
    · simp [mapDelete, h, ih]
    · simp [mapDelete, mapGet?, h, ih]

theorem mapGet?_mapDelete_other (l : List (String × AudioAsset)) (k j : String) (hj : j ≠ k) :
    mapGet? (mapDelete l k) j = mapGet? l j := by
  induction l with
  | nil => rfl
  | cons p t ih =>
    by_cases h : p.1 = k
    · simp [mapDelete, mapGet?, h, Ne.symm hj, ih]
    · by_cases h2 : p.1 = j
      · simp [mapDelete, mapGet?, h, h2, hj]
      · simp [mapDelete, mapGet?, h, h2, ih]

theorem mapGet?_mapSet_self (l : List (String × AudioAsset)) (k : String) (v : AudioAsset) :
    mapGet? (mapSet l k v) k = some v := by
  induction l with
  | nil => simp [mapSet, mapGet?]
  | cons p t ih =>
    by_cases h : p.1 = k
    · simp [mapSet, mapGet?, h]
    · simp [mapSet, mapGet?, h, ih]

theorem mapHas_of_get_none (l : List (String × AudioAsset)) (k : String)
    (h : mapHas l k = false) : mapGet? l k = none := by
  cases hm : mapGet? l k with
  | none => rfl
  | some a => rw [mapHas, hm] at h; simp at h

/-! Claim theorems. -/

open NativeAudioWeb

theorem getAudioAsset_err (st : WebState) (id : String) (h0 : ¬ id.length = 0)
    (h : mapGet? st.registry id = none) :
    getAudioAsset st id = .error (assetNotFound id) := by
  simp [getAudioAsset, checkAssetId, h0, h]

theorem getAudioAsset_ok (st : WebState) (id : String) (asset : AudioAsset)
    (h0 : ¬ id.length = 0) (h : mapGet? st.registry id = some asset) :
    getAudioAsset st id = .ok asset := by
  simp [getAudioAsset, checkAssetId, h0, h]

/-- C1: for every non-empty identifier not present in the registry, each of
play, loop, pause, resume, stop, unload, setCurrentTime, getCurrentTime,
getDuration, setVolume, setRate and isPlaying fails with the AssetNotFound
error and leaves the state untouched. -/
theorem unregistered_ops_fail_assetNotFound (st : WebState) (id : String)
    (time : Option JSNum) (t v r : JSNum)
    (h0 : ¬ id.length = 0) (h : mapHas st.registry id = false) :
    play st id time = (.error (assetNotFound id), st) ∧
    NativeAudioWeb.loop st id = (.error (assetNotFound id), st) ∧
    pause st id = (.error (assetNotFound id), st) ∧
    resume st id = (.error (assetNotFound id), st) ∧
    stop st id = (.error (assetNotFound id), st) ∧
    unload st id = (.error (assetNotFound id), st) ∧
    setCurrentTime st id t = (.error (assetNotFound id), st) ∧
    getCurrentTime st id = (.error (assetNotFound id), st) ∧
    getDuration st id = (.error (assetNotFound id), st) ∧
    setVolume st id (some v) = (.error (assetNotFound id), st) ∧
    setRate st id (some r) = (.error (assetNotFound id), st) ∧
    isPlaying st id = (.error (assetNotFound id), st) := by
  have hn : mapGet? st.registry id = none := mapHas_of_get_none _ _ h
  have hga : getAudioAsset st id = .error (assetNotFound id) := getAudioAsset_err _ _ h0 hn
  refine ⟨?_, ?_, ?_, ?_, ?_, ?_, ?_, ?_, ?_, ?_, ?_, ?_⟩ <;>
    simp [play, NativeAudioWeb.loop, pause, resume, stop, unload, setCurrentTime,
      getCurrentTime, getDuration, setVolume, setRate, isPlaying, hga]

theorem unregistered_ops_fail_assetNotFound_witness :
    ¬ ("x" : String).length = 0 ∧
    mapHas (WebState.mk [] []).registry "x" = false ∧
    (play ⟨[], []⟩ "x" none = (.error (assetNotFound "x"), ⟨[], []⟩) ∧
     NativeAudioWeb.loop ⟨[], []⟩ "x" = (.error (assetNotFound "x"), ⟨[], []⟩) ∧
     pause ⟨[], []⟩ "x" = (.error (assetNotFound "x"), ⟨[], []⟩) ∧
     resume ⟨[], []⟩ "x" = (.error (assetNotFound "x"), ⟨[], []⟩) ∧
     stop ⟨[], []⟩ "x" = (.error (assetNotFound "x"), ⟨[], []⟩) ∧
     unload ⟨[], []⟩ "x" = (.error (assetNotFound "x"), ⟨[], []⟩) ∧
     setCurrentTime ⟨[], []⟩ "x" (JSNum.fin 1) = (.error (assetNotFound "x"), ⟨[], []⟩) ∧
     getCurrentTime ⟨[], []⟩ "x" = (.error (assetNotFound "x"), ⟨[], []⟩) ∧
     getDuration ⟨[], []⟩ "x" = (.error (assetNotFound "x"), ⟨[], []⟩) ∧
     setVolume ⟨[], []⟩ "x" (some (JSNum.fin 1)) = (.error (assetNotFound "x"), ⟨[], []⟩) ∧
     setRate ⟨[], []⟩ "x" (some (JSNum.fin 1)) = (.error (assetNotFound "x"), ⟨[], []⟩) ∧
     isPlaying ⟨[], []⟩ "x" = (.error (assetNotFound "x"), ⟨[], []⟩)) :=
  ⟨by decide, by decide,
    unregistered_ops_fail_assetNotFound ⟨[], []⟩ "x" none (JSNum.fin 1) (JSNum.fin 1)
      (JSNum.fin 1) (by decide) (by decide)⟩

/-- C2: preload on an identifier already present in the registry fails with
the DuplicateAsset error and returns the state unchanged, so the asset
registered first keeps its backend element and settings. -/
theorem preload_duplicate_fails_state_unchanged (st : WebState) (id path : String)
    (isUrl : Bool) (volume : Option JSNum) (h : mapHas st.registry id = true) :
    preload st id path isUrl volume =
      (.error (.thrown "AssetId already exists. Unload first if like to change!"), st) := by
  simp [preload, h]

theorem preload_duplicate_fails_state_unchanged_witness :
    mapHas (WebState.mk [("a", ⟨newAudio "x.mp3"⟩)] []).registry "a" = true ∧
    preload ⟨[("a", ⟨newAudio "x.mp3"⟩)], []⟩ "a" "y.mp3" false none =
      (.error (.thrown "AssetId already exists. Unload first if like to change!"),
        ⟨[("a", ⟨newAudio "x.mp3"⟩)], []⟩) :=
  ⟨by decide,
    preload_duplicate_fails_state_unchanged ⟨[("a", ⟨newAudio "x.mp3"⟩)], []⟩ "a" "y.mp3"
      false none (by decide)⟩

/-- C7: stop on a registered asset succeeds in every prior state, pauses
the backend, clears the loop flag, rewinds the position to 0, and leaves
the asset registered; other assets and the emitted events are untouched. -/
theorem stop_pauses_clears_loop_rewinds (st : WebState) (id j : String) (asset : AudioAsset)
    (h0 : ¬ id.length = 0) (h : mapGet? st.registry id = some asset) (hj : j ≠ id) :
    (stop st id).1 = .ok () ∧
    mapGet? (stop st id).2.registry id =
      some ⟨{ asset.audio with paused := true, loop := false, currentTime := JSNum.fin 0 }⟩ ∧
    mapGet? (stop st id).2.registry j = mapGet? st.registry j ∧
    (stop st id).2.events = st.events := by
  have hga : getAudioAsset st id = .ok asset := getAudioAsset_ok _ _ _ h0 h
  refine ⟨?_, ?_, ?_, ?_⟩ <;>
    simp [stop, hga, updateAudio, mapGet?_updAudio_self, mapGet?_updAudio_other, h, hj]

theorem stop_pauses_clears_loop_rewinds_witness :
    ¬ ("a" : String).length = 0 ∧
    mapGet? (WebState.mk [("a", ⟨newAudio "x.mp3"⟩)] []).registry "a" = some ⟨newAudio "x.mp3"⟩ ∧
    ("b" : String) ≠ "a" ∧
    ((stop ⟨[("a", ⟨newAudio "x.mp3"⟩)], []⟩ "a").1 = .ok () ∧
     mapGet? (stop ⟨[("a", ⟨newAudio "x.mp3"⟩)], []⟩ "a").2.registry "a" =
       some ⟨{ (newAudio "x.mp3") with paused := true, loop := false, currentTime := JSNum.fin 0 }⟩ ∧
     mapGet? (stop ⟨[("a", ⟨newAudio "x.mp3"⟩)], []⟩ "a").2.registry "b" =
       mapGet? (WebState.mk [("a", ⟨newAudio "x.mp3"⟩)] []).registry "b" ∧
     (stop ⟨[("a", ⟨newAudio "x.mp3"⟩)], []⟩ "a").2.events = (WebState.mk [("a", ⟨newAudio "x.mp3"⟩)] []).events) :=
  ⟨by decide, by decide, by decide,
    stop_pauses_clears_loop_rewinds ⟨[("a", ⟨newAudio "x.mp3"⟩)], []⟩ "a" "b" ⟨newAudio "x.mp3"⟩
      (by decide) (by decide) (by decide)⟩

/-- C3: play on a registered asset, whatever its prior state, succeeds and
leaves the backend stopped-and-restarted: loop disabled, position set to
the requested time (0 when the time is omitted), playback started, and one
more one-shot ended listener armed; other assets and the emitted events are
untouched. -/
theorem play_restarts_from_requested_time (st : WebState) (id j : String) (asset : AudioAsset)
    (time : Option JSNum) (h0 : ¬ id.length = 0) (h : mapGet? st.registry id = some asset)
    (hj : j ≠ id) :
    (play st id time).1 = .ok () ∧
    mapGet? (play st id time).2.registry id =
      some ⟨{ asset.audio with
              loop := false, currentTime := time.getD (JSNum.fin 0),
              endedOnceListeners := asset.audio.endedOnceListeners + 1, paused := false }⟩ ∧
    mapGet? (play st id time).2.registry j = mapGet? st.registry j ∧
    (play st id time).2.events = st.events := by
  have hga : getAudioAsset st id = .ok asset := getAudioAsset_ok _ _ _ h0 h
  refine ⟨?_, ?_, ?_, ?_⟩ <;>
    simp [play, stop, hga, updateAudio, mapGet?_updAudio_self, mapGet?_updAudio_other, h, hj]

theorem play_restarts_from_requested_time_witness :
    ¬ ("a" : String).length = 0 ∧
    mapGet? (WebState.mk [("a", ⟨newAudio "x.mp3"⟩)] []).registry "a" = some ⟨newAudio "x.mp3"⟩ ∧
    ("b" : String) ≠ "a" ∧
    ((play ⟨[("a", ⟨newAudio "x.mp3"⟩)], []⟩ "a" (some (JSNum.fin 5))).1 = .ok () ∧
     mapGet? (play ⟨[("a", ⟨newAudio "x.mp3"⟩)], []⟩ "a" (some (JSNum.fin 5))).2.registry "a" =
       some ⟨{ (newAudio "x.mp3") with
               loop := false,
               currentTime := (some (JSNum.fin 5)).getD (JSNum.fin 0),
               endedOnceListeners := (newAudio "x.mp3").endedOnceListeners + 1, paused := false }⟩ ∧
     mapGet? (play ⟨[("a", ⟨newAudio "x.mp3"⟩)], []⟩ "a" (some (JSNum.fin 5))).2.registry "b" =
       mapGet? (WebState.mk [("a", ⟨newAudio "x.mp3"⟩)] []).registry "b" ∧
     (play ⟨[("a", ⟨newAudio "x.mp3"⟩)], []⟩ "a" (some (JSNum.fin 5))).2.events =
       (WebState.mk [("a", ⟨newAudio "x.mp3"⟩)] []).events) :=
  ⟨by decide, by decide, by decide,
    play_restarts_from_requested_time ⟨[("a", ⟨newAudio "x.mp3"⟩)], []⟩ "a" "b" ⟨newAudio "x.mp3"⟩
      (some (JSNum.fin 5)) (by decide) (by decide) (by decide)⟩

/-- C5 counterexample: on a freshly preloaded asset, setRate with rate 8,
which lies outside the closed range from 0.25 to 4, succeeds and mutates
the stored playbackRate to 8, instead of failing with InvalidRate. -/
theorem setRate_out_of_range_accepted_cex :
    (NativeAudioWeb.setRate (preload ⟨[], []⟩ "a" "x.mp3" false none).2 "a"
      (some (JSNum.fin 8))).1 = .ok () ∧
    (mapGet? (NativeAudioWeb.setRate (preload ⟨[], []⟩ "a" "x.mp3" false none).2 "a"
      (some (JSNum.fin 8))).2.registry "a").map (fun a => a.audio.playbackRate) =
        some (JSNum.fin 8) ∧
    ¬ ((1 : ℚ) / 4 ≤ 8 ∧ (8 : ℚ) ≤ 4) :=
  ⟨rfl, by decide, by norm_num⟩

/-- C5 amended: on a registered asset, setVolume with a volume outside the
closed range from 0 to 1 fails (the backend volume setter raises
IndexSizeError) and the state, in particular the stored volume, is
unchanged; setRate performs no range validation at all: any numeric rate is
assigned to the backend, mutating the stored playbackRate. -/
theorem setVolume_rejected_setRate_unchecked (st : WebState) (id : String) (asset : AudioAsset)
    (v r : JSNum) (h0 : ¬ id.length = 0) (h : mapGet? st.registry id = some asset)
    (hv : v.inUnitRange = false) :
    NativeAudioWeb.setVolume st id (some v) = (.error .indexSizeError, st) ∧
    (NativeAudioWeb.setRate st id (some r)).1 = .ok () ∧
    mapGet? (NativeAudioWeb.setRate st id (some r)).2.registry id =
      some ⟨{ asset.audio with playbackRate := r }⟩ := by
  have hga : getAudioAsset st id = .ok asset := getAudioAsset_ok _ _ _ h0 h
  refine ⟨?_, ?_, ?_⟩ <;>
    simp [NativeAudioWeb.setVolume, NativeAudioWeb.setRate, hga, setVolumeDOM, hv,
      updateAudio, mapGet?_updAudio_self, h]

theorem setVolume_rejected_setRate_unchecked_witness :
    ¬ ("a" : String).length = 0 ∧
    mapGet? (WebState.mk [("a", ⟨newAudio "x.mp3"⟩)] []).registry "a" = some ⟨newAudio "x.mp3"⟩ ∧
    (JSNum.fin 2).inUnitRange = false ∧
    (NativeAudioWeb.setVolume ⟨[("a", ⟨newAudio "x.mp3"⟩)], []⟩ "a" (some (JSNum.fin 2)) =
      (.error .indexSizeError, ⟨[("a", ⟨newAudio "x.mp3"⟩)], []⟩) ∧
     (NativeAudioWeb.setRate ⟨[("a", ⟨newAudio "x.mp3"⟩)], []⟩ "a" (some (JSNum.fin 8))).1 = .ok () ∧
     mapGet? (NativeAudioWeb.setRate ⟨[("a", ⟨newAudio "x.mp3"⟩)], []⟩ "a"
       (some (JSNum.fin 8))).2.registry "a" =
         some ⟨{ (newAudio "x.mp3") with playbackRate := JSNum.fin 8 }⟩) :=
  ⟨by decide, by decide, by decide,
    setVolume_rejected_setRate_unchecked ⟨[("a", ⟨newAudio "x.mp3"⟩)], []⟩ "a" ⟨newAudio "x.mp3"⟩
      (JSNum.fin 2) (JSNum.fin 8) (by decide) (by decide) (by decide)⟩

/-- C6: on a registered asset, getDuration fails with the NoDurationYet
error when the backend duration is NaN, fails with the DurationUnavailable
error when the duration is an infinity, and returns the duration when it is
finite; stated over the registered state with its duration set to each of
the four possible shapes. -/
theorem getDuration_error_taxonomy (st : WebState) (id : String) (asset : AudioAsset) (q : ℚ)
    (h0 : ¬ id.length = 0) (h : mapGet? st.registry id = some asset) :
    (getDuration (updateAudio st id (fun a => { a with duration := JSNum.nan })) id).1 =
      .error (.thrown "no duration available") ∧
    (getDuration (updateAudio st id (fun a => { a with duration := JSNum.posInf })) id).1 =
      .error (.thrown "duration not available => media resource is streaming") ∧
    (getDuration (updateAudio st id (fun a => { a with duration := JSNum.negInf })) id).1 =
      .error (.thrown "duration not available => media resource is streaming") ∧
    (getDuration (updateAudio st id (fun a => { a with duration := JSNum.fin q })) id).1 =
      .ok (JSNum.fin q) := by
  refine ⟨?_, ?_, ?_, ?_⟩ <;>
    simp [getDuration, getAudioAsset, checkAssetId, h0, updateAudio, mapGet?_updAudio_self, h,
      JSNum.isNaN, JSNum.isFinite]

theorem getDuration_error_taxonomy_witness :
    ¬ ("a" : String).length = 0 ∧
    mapGet? (WebState.mk [("a", ⟨newAudio "x.mp3"⟩)] []).registry "a" = some ⟨newAudio "x.mp3"⟩ ∧
    ((getDuration (updateAudio ⟨[("a", ⟨newAudio "x.mp3"⟩)], []⟩ "a"
        (fun a => { a with duration := JSNum.nan })) "a").1 =
      .error (.thrown "no duration available") ∧
     (getDuration (updateAudio ⟨[("a", ⟨newAudio "x.mp3"⟩)], []⟩ "a"
        (fun a => { a with duration := JSNum.posInf })) "a").1 =
      .error (.thrown "duration not available => media resource is streaming") ∧
     (getDuration (updateAudio ⟨[("a", ⟨newAudio "x.mp3"⟩)], []⟩ "a"
        (fun a => { a with duration := JSNum.negInf })) "a").1 =
      .error (.thrown "duration not available => media resource is streaming") ∧
     (getDuration (updateAudio ⟨[("a", ⟨newAudio "x.mp3"⟩)], []⟩ "a"
        (fun a => { a with duration := JSNum.fin 7 })) "a").1 = .ok (JSNum.fin 7)) :=
  ⟨by decide, by decide,
    getDuration_error_taxonomy ⟨[("a", ⟨newAudio "x.mp3"⟩)], []⟩ "a" ⟨newAudio "x.mp3"⟩ 7
      (by decide) (by decide)⟩

/-- C4: evaluation at the failing input. Starting from the empty state,
preload of the asset a, then two play calls, then ONE natural playback
completion notifies the complete event TWICE, because each play call arms a
fresh one-shot ended listener and stale listeners of earlier play calls are
never removed; the claim demands exactly one complete event per natural
completion after any sequence of play calls. -/
theorem play_play_single_completion_two_events :
    (fireEnded (play (play (preload ⟨[], []⟩ "a" "x.mp3" false none).2
      "a" none).2 "a" none).2 "a").events = ["a", "a"] := by decide

/-- C8: unload of a registered asset succeeds and removes the registry
entry, so an immediate preload of the same identifier with a non-empty path
does not fail with DuplicateAsset and registers a fresh asset under the
identifier. -/
theorem unload_then_preload_succeeds (st : WebState) (id path : String) (asset : AudioAsset)
    (isUrl : Bool) (h0 : ¬ id.length = 0) (h : mapGet? st.registry id = some asset)
    (hp : ¬ path.length = 0) :
    (unload st id).1 = .ok () ∧
    mapHas (unload st id).2.registry id = false ∧
    (preload (unload st id).2 id path isUrl none).1 = .ok () ∧
    mapGet? (preload (unload st id).2 id path isUrl none).2.registry id =
      some ⟨newAudio path⟩ := by
  have hga : getAudioAsset st id = .ok asset := getAudioAsset_ok _ _ _ h0 h
  have h1 : (unload st id).1 = .ok () := by simp [unload, stop, hga]
  have h2 : mapHas (unload st id).2.registry id = false := by
    simp [unload, stop, hga, updateAudio, mapHas, mapGet?_mapDelete_self]
  refine ⟨h1, h2, ?_, ?_⟩ <;>
    simp [preload, h2, hp, regexTestFileLocation, mapGet?_mapSet_self, newAudio]

theorem unload_then_preload_succeeds_witness :
    ¬ ("a" : String).length = 0 ∧
    mapGet? (WebState.mk [("a", ⟨newAudio "x.mp3"⟩)] []).registry "a" = some ⟨newAudio "x.mp3"⟩ ∧
    ¬ ("y.mp3" : String).length = 0 ∧
    ((unload ⟨[("a", ⟨newAudio "x.mp3"⟩)], []⟩ "a").1 = .ok () ∧
     mapHas (unload ⟨[("a", ⟨newAudio "x.mp3"⟩)], []⟩ "a").2.registry "a" = false ∧
     (preload (unload ⟨[("a", ⟨newAudio "x.mp3"⟩)], []⟩ "a").2 "a" "y.mp3" false none).1 = .ok () ∧
     mapGet? (preload (unload ⟨[("a", ⟨newAudio "x.mp3"⟩)], []⟩ "a").2 "a" "y.mp3"
       false none).2.registry "a" = some ⟨newAudio "y.mp3"⟩) :=
  ⟨by decide, by decide, by decide,
    unload_then_preload_succeeds ⟨[("a", ⟨newAudio "x.mp3"⟩)], []⟩ "a" "y.mp3" ⟨newAudio "x.mp3"⟩
      false (by decide) (by decide) (by decide)⟩

/-- C9 counterexample: preload performs no identifier validation, so an
asset can be registered under the empty identifier; isPreloaded on the
empty identifier then returns found false although the identifier is
registered, against the claim that found is true exactly for registered
identifiers. -/
theorem isPreloaded_empty_id_registered_cex :
    (preload ⟨[], []⟩ "" "x.mp3" false none).1 = .ok () ∧
    mapHas (preload ⟨[], []⟩ "" "x.mp3" false none).2.registry "" = true ∧
    isPreloaded (preload ⟨[], []⟩ "" "x.mp3" false none).2 "" = false :=
  ⟨rfl, by decide, by decide⟩

/-- C9 amended: isPreloaded never throws, and it returns found true exactly
when the identifier is non-empty and registered; for an empty identifier it
returns found false even when an asset is registered under it. -/
theorem isPreloaded_iff_nonempty_and_registered (st : WebState) (id : String) :
    isPreloaded st id = true ↔ (¬ id.length = 0 ∧ mapHas st.registry id = true) := by
  by_cases h0 : id.length = 0
  · simp [isPreloaded, getAudioAsset, checkAssetId, h0]
  · cases hm : mapGet? st.registry id <;>
      simp [isPreloaded, getAudioAsset, checkAssetId, mapHas, h0, hm]

/-- C10: preload with an explicit volume of 0 does not apply the volume
option, because the option is applied only when truthy and 0 is falsy; the
registered asset keeps the backend default volume 1.0. -/
theorem preload_zero_volume_ignored (st : WebState) (id path : String) (isUrl : Bool)
    (h : mapHas st.registry id = false) (hp : ¬ path.length = 0) :
    (preload st id path isUrl (some (JSNum.fin 0))).1 = .ok () ∧
    (mapGet? (preload st id path isUrl (some (JSNum.fin 0))).2.registry id).map
      (fun a => a.audio.volume) = some (JSNum.fin 1) := by
  refine ⟨?_, ?_⟩ <;>
    simp [preload, h, hp, regexTestFileLocation, JSNum.truthy, mapGet?_mapSet_self, newAudio]

theorem preload_zero_volume_ignored_witness :
    mapHas (WebState.mk [] []).registry "a" = false ∧
    ¬ ("x.mp3" : String).length = 0 ∧
    ((preload ⟨[], []⟩ "a" "x.mp3" false (some (JSNum.fin 0))).1 = .ok () ∧
     (mapGet? (preload ⟨[], []⟩ "a" "x.mp3" false (some (JSNum.fin 0))).2.registry "a").map
       (fun a => a.audio.volume) = some (JSNum.fin 1)) :=
  ⟨by decide, by decide,
    preload_zero_volume_ignored ⟨[], []⟩ "a" "x.mp3" false (by decide) (by decide)⟩
